import Mathlib

/-!
Verification of the milkeating feeding-tracker bot core (src/bot.py).

Shallow embedding conventions:
* A UTC instant is an `Int` counting microseconds since the Unix epoch
  (Python `datetime` has microsecond resolution).  The configured time zone
  (`ZoneInfo(TIMEZONE)`) is modelled as a fixed offset in minutes from UTC;
  converting an aware datetime between zones does not change its instant, and
  the civil fields of a naive datetime are in bijection with the instant they
  denote when read as UTC, so a naive datetime is carried as that instant plus
  an awareness flag.
* The sqlite tables are lists kept in insertion order (sqlite scans rows in
  rowid order, and rows are only appended); `fetchone` of a `WHERE` query is
  `List.find?`.
* Python truthiness on optional integers (`if x:`, `x or y`) is modelled
  explicitly: `None` and `0` are falsy.
* Handler replies are modelled as tags (one per distinct message template),
  carrying the data interpolated into the message where a claim needs it.
-/

namespace MilkBot

def microPerMin : Int := 60000000

def microPerDay : Int := 86400000000

/-- Python truthiness of an optional integer: `None` and `0` are falsy. -/
def truthyOI : Option Int → Bool
  | some v => v != 0
  | none => false

/-- Python `x or y` for an optional integer `x` and integer `y`. -/
def pyOr (x : Option Int) (y : Int) : Int :=
  match x with
  | some v => if v = 0 then y else v
  | none => y

/-- A Python `datetime` value as it flows through the bot: the instant its
civil fields denote when read as UTC, plus whether it carries a tzinfo.
All datetimes the handlers build are aware; the naive branch of
`add_feeding_and_schedule` (bot.py:166-167) is kept for fidelity. -/
structure PyDatetime where
  instant : Int
  tzAware : Bool
deriving DecidableEq

/-- bot.py:182-183: `dt.replace(second=0, microsecond=0)`.  Applied only to
UTC datetimes, where zeroing the second and microsecond fields is flooring
the epoch offset to a whole minute. -/
def strip_seconds (t : Int) : Int := t - t % microPerMin

/-- bot.py:166-169: naive datetimes are interpreted in the configured zone
and converted to UTC; aware datetimes are converted (instant unchanged). -/
def to_utc (tzOffsetMin : Int) (dt : PyDatetime) : Int :=
  if dt.tzAware then dt.instant else dt.instant - tzOffsetMin * microPerMin

/-! ### Python `int(text)` (bot.py:391, 442, 325) -/

def isDigitC (c : Char) : Bool := '0' ≤ c && c ≤ '9'

def dv (c : Char) : Nat := c.toNat - '0'.toNat

def isPySpace (c : Char) : Bool :=
  c = ' ' || c = '\t' || c = '\n' || c = '\r' || c = '\x0b' || c = '\x0c'

/-- Python `str.strip()` on ASCII whitespace. -/
def pyStripL (l : List Char) : List Char :=
  ((l.dropWhile isPySpace).reverse.dropWhile isPySpace).reverse

def pyStrip (s : String) : String := ⟨pyStripL s.toList⟩

/-- Digits after the first one; a single underscore is permitted between two
digits (Python integer literals group digits with underscores). -/
def pyDigitsAux (acc : Nat) : List Char → Option Nat
  | [] => some acc
  | '_' :: c :: rest =>
      if isDigitC c then pyDigitsAux (acc * 10 + dv c) rest else none
  | c :: rest =>
      if isDigitC c then pyDigitsAux (acc * 10 + dv c) rest else none

/-- A nonempty run of digits (with optional underscore grouping). -/
def pyDigitsFrom : List Char → Option Nat
  | c :: rest => if isDigitC c then pyDigitsAux (dv c) rest else none
  | [] => none

def pyIntL : List Char → Option Int
  | '+' :: rest => (pyDigitsFrom rest).map (fun n => (n : Int))
  | '-' :: rest => (pyDigitsFrom rest).map (fun n => -(n : Int))
  | l => (pyDigitsFrom l).map (fun n => (n : Int))

/-- Python `int(text)` on a string: strip whitespace, optional sign, base-10
digits.  `none` models `ValueError`. -/
def pyInt (s : String) : Option Int := pyIntL (pyStripL s.toList)

/-- bot.py:390-393 and 441-444: `int(text)` rejecting values `<= 0`.
`none` models the raised-and-caught `ValueError`. -/
def parse_positive_ml (text : String) : Option Int :=
  match pyInt text with
  | some v => if v ≤ 0 then none else some v
  | none => none

/-! ### Proleptic Gregorian calendar (Python `datetime` internals) -/

def isLeap (y : Int) : Bool := y % 4 = 0 && (y % 100 != 0 || y % 400 = 0)

def daysInMonth (y : Int) (m : Nat) : Nat :=
  if m = 2 then (if isLeap y then 29 else 28)
  else if m = 4 || m = 6 || m = 9 || m = 11 then 30
  else 31

/-- Days since 1970-01-01 of a proleptic Gregorian date (`Int` division on
this toolchain is Euclidean, i.e. floors for the positive divisors used). -/
def daysFromCivil (y : Int) (m d : Nat) : Int :=
  let yAdj : Int := if m ≤ 2 then y - 1 else y
  let era : Int := yAdj / 400
  let yoe : Nat := (yAdj - era * 400).toNat
  let mp : Nat := if 2 < m then m - 3 else m + 9
  let doy : Nat := (153 * mp + 2) / 5 + d - 1
  let doe : Nat := yoe * 365 + yoe / 4 - yoe / 100 + doy
  era * 146097 + (doe : Int) - 719468

/-- Date of a day count since 1970-01-01 (inverse of `daysFromCivil`). -/
def civilFromDays (z0 : Int) : Int × Nat × Nat :=
  let z := z0 + 719468
  let era : Int := z / 146097
  let doe : Nat := (z - era * 146097).toNat
  let yoe : Nat := (doe - doe / 1460 + doe / 36524 - doe / 146096) / 365
  let y : Int := (yoe : Int) + era * 400
  let doy : Nat := doe - (365 * yoe + yoe / 4 - yoe / 100)
  let mp : Nat := (5 * doy + 2) / 153
  let d : Nat := doy - (153 * mp + 2) / 5 + 1
  let m : Nat := if mp < 10 then mp + 3 else mp - 9
  (if m ≤ 2 then y + 1 else y, m, d)

/-- The instant (epoch microseconds, read as UTC) of civil fields
`y-m-d hh:mi` with zero seconds and microseconds. -/
def civilToMicro (y : Int) (m d hh mi : Nat) : Int :=
  daysFromCivil y m d * microPerDay + ((hh * 60 + mi : Nat) : Int) * microPerMin

/-! ### `datetime.strptime` for the two fixed formats (bot.py:192, 198)

Each directive is translated from the regular expression CPython compiles
for it; the whole input must be consumed (otherwise strptime raises). -/

/-- `%Y`: exactly four digits. -/
def takeYear : List Char → Option (Nat × List Char)
  | a :: b :: c :: d :: rest =>
      if isDigitC a && isDigitC b && isDigitC c && isDigitC d then
        some (1000 * dv a + 100 * dv b + 10 * dv c + dv d, rest)
      else none
  | _ => none

/-- `%m`: `1[0-2]|0[1-9]|[1-9]`, alternatives tried in order. -/
def takeMonth : List Char → Option (Nat × List Char)
  | a :: b :: rest =>
      if a = '1' && ('0' ≤ b && b ≤ '2') then some (10 + dv b, rest)
      else if a = '0' && ('1' ≤ b && b ≤ '9') then some (dv b, rest)
      else if '1' ≤ a && a ≤ '9' then some (dv a, b :: rest)
      else none
  | [a] => if '1' ≤ a && a ≤ '9' then some (dv a, []) else none
  | [] => none

/-- `%d`: `3[01]|[12][0-9]|0[1-9]|[1-9]`, alternatives tried in order. -/
def takeDay : List Char → Option (Nat × List Char)
  | a :: b :: rest =>
      if a = '3' && (b = '0' || b = '1') then some (30 + dv b, rest)
      else if (a = '1' || a = '2') && isDigitC b then some (10 * dv a + dv b, rest)
      else if a = '0' && ('1' ≤ b && b ≤ '9') then some (dv b, rest)
      else if '1' ≤ a && a ≤ '9' then some (dv a, b :: rest)
      else none
  | [a] => if '1' ≤ a && a ≤ '9' then some (dv a, []) else none
  | [] => none

/-- `%H`: `2[0-3]|[0-1][0-9]|[0-9]`, alternatives tried in order. -/
def takeH : List Char → Option (Nat × List Char)
  | a :: b :: rest =>
      if a = '2' && ('0' ≤ b && b ≤ '3') then some (20 + dv b, rest)
      else if (a = '0' || a = '1') && isDigitC b then some (10 * dv a + dv b, rest)
      else if isDigitC a then some (dv a, b :: rest)
      else none
  | [a] => if isDigitC a then some (dv a, []) else none
  | [] => none

/-- `%M`: `[0-5][0-9]|[0-9]`, alternatives tried in order. -/
def takeMin : List Char → Option (Nat × List Char)
  | a :: b :: rest =>
      if ('0' ≤ a && a ≤ '5') && isDigitC b then some (10 * dv a + dv b, rest)
      else if isDigitC a then some (dv a, b :: rest)
      else none
  | [a] => if isDigitC a then some (dv a, []) else none
  | [] => none

def takeLit (c : Char) : List Char → Option (List Char)
  | a :: rest => if a = c then some rest else none
  | [] => none

/-- `datetime.strptime(text, "%Y-%m-%d %H:%M")` followed by the constructor
checks (`MINYEAR = 1`, day within the month); bot.py:192. -/
def strptimeFull (s : String) : Option (Int × Nat × Nat × Nat × Nat) := do
  let (y, r1) ← takeYear s.toList
  let r2 ← takeLit '-' r1
  let (m, r3) ← takeMonth r2
  let r4 ← takeLit '-' r3
  let (d, r5) ← takeDay r4
  let r6 ← takeLit ' ' r5
  let (h, r7) ← takeH r6
  let r8 ← takeLit ':' r7
  let (mi, r9) ← takeMin r8
  if r9 = [] ∧ 1 ≤ y ∧ d ≤ daysInMonth (y : Int) m then
    some ((y : Int), m, d, h, mi)
  else none

/-- `datetime.strptime(text, "%H:%M").time()`; bot.py:198. -/
def strptimeHM (s : String) : Option (Nat × Nat) := do
  let (h, r1) ← takeH s.toList
  let r2 ← takeLit ':' r1
  let (m, r3) ← takeMin r2
  if r3 = [] then some (h, m) else none

/-- bot.py:199-200: the instant of today-in-the-local-zone at `hh:mi`,
where today is the local civil date of `now`. -/
def bare_today_instant (tzOffsetMin : Int) (now : Int) (hh mi : Nat) : Int :=
  let nowLocal := now + tzOffsetMin * microPerMin
  let c := civilFromDays (nowLocal / microPerDay)
  civilToMicro c.1 c.2.1 c.2.2 hh mi - tzOffsetMin * microPerMin

/-- bot.py:185-205 `parse_user_datetime`: accept `YYYY-MM-DD HH:MM` or
`HH:MM` as local time; a bare time on or before `now` is moved to the next
day (adding one civil day to a fixed-offset datetime adds exactly 24 hours
to its instant). -/
def parse_user_datetime (text : String) (tzOffsetMin : Int) (now : Int) : Option Int :=
  let t := pyStrip text
  match strptimeFull t with
  | some (y, m, d, hh, mi) =>
      some (civilToMicro y m d hh mi - tzOffsetMin * microPerMin)
  | none =>
    match strptimeHM t with
    | some (hh, mi) =>
        let inst := bare_today_instant tzOffsetMin now hh mi
        if inst ≤ now then some (inst + microPerDay) else some inst
    | none => none

/-! ### The Store (sqlite tables as insertion-ordered lists) -/

structure Feeding where
  user_id : Int
  ts_utc : Int
  ml : Option Int
deriving DecidableEq

structure Invite where
  code : String
  owner_id : Int
  invited_id : Option Int
  created_at : Int
deriving DecidableEq

structure Reminder where
  id : Int
  owner_id : Int
  owner_chat_id : Option Int
  adder_chat_id : Option Int
  remind_at : Int
  interval_minutes : Int
  created_at : Int
  active : Bool
deriving DecidableEq

structure Store where
  feedings : List Feeding := []
  invites : List Invite := []
  reminders : List Reminder := []
deriving DecidableEq

/-- bot.py:52-58 `add_feeding_db`. -/
def add_feeding_db (s : Store) (user_id : Int) (ts_utc : Int) (ml : Option Int) : Store :=
  { s with feedings := s.feedings ++ [{ user_id := user_id, ts_utc := ts_utc, ml := ml }] }

/-- bot.py:128-138 `add_reminder_db`; `lastrowid` is modelled as one past the
current row count (rows are only ever appended, never deleted). -/
def add_reminder_db (s : Store) (owner_id : Int) (owner_chat_id adder_chat_id : Option Int)
    (remind_at : Int) (interval_minutes : Int) (now : Int) : Int × Store :=
  let rid : Int := (s.reminders.length : Int) + 1
  (rid, { s with reminders := s.reminders ++
      [{ id := rid, owner_id := owner_id, owner_chat_id := owner_chat_id,
         adder_chat_id := adder_chat_id, remind_at := remind_at,
         interval_minutes := interval_minutes, created_at := now, active := true }] })

/-- bot.py:140-145 `mark_reminder_done`: `UPDATE reminders SET active = 0`. -/
def mark_reminder_done (s : Store) (reminder_id : Int) : Store :=
  { s with reminders :=
      s.reminders.map (fun r => if r.id = reminder_id then { r with active := false } else r) }

/-- bot.py:106-107: the `SELECT owner_id, invited_id FROM invites WHERE code = ?`
step of `join_with_code` (first matching row, `code` is the primary key). -/
def join_read (s : Store) (code : String) : Option (Int × Option Int) :=
  (s.invites.find? (fun i => i.code = code)).map (fun i => (i.owner_id, i.invited_id))

/-- bot.py:115: `UPDATE invites SET invited_id = ? WHERE code = ?`. -/
def join_update (s : Store) (code : String) (invited_id : Int) : Store :=
  { s with invites :=
      s.invites.map (fun i => if i.code = code then { i with invited_id := some invited_id } else i) }

/-- bot.py:108-118: the decision taken on the row fetched by `join_read`
(the fetch and the update are separate store operations in the source). -/
def join_finish (s : Store) (code : String) (invited_id : Int)
    (fetched : Option (Int × Option Int)) : Option Int × String × Store :=
  match fetched with
  | none => (none, "not_found", s)
  | some (owner_id, existing) =>
      if existing.isSome then (none, "already_used", s)
      else (some owner_id, "ok", join_update s code invited_id)

/-- bot.py:103-118 `join_with_code`, run without interleaving. -/
def join_with_code (s : Store) (code : String) (invited_id : Int) :
    Option Int × String × Store :=
  join_finish s code invited_id (join_read s code)

/-- bot.py:120-126 `get_owner_by_invited` (sqlite treats `NULL = ?` as false,
so only rows whose `invited_id` equals the argument match). -/
def get_owner_by_invited (s : Store) (invited_id : Int) : Option Int :=
  (s.invites.find? (fun i => i.invited_id = some invited_id)).map (fun i => i.owner_id)

/-- bot.py:275: `owner_id = get_owner_by_invited(user_id) or user_id`
(the identity resolver, with Python truthiness on the lookup result). -/
def resolve_owner (s : Store) (user_id : Int) : Int :=
  pyOr (get_owner_by_invited s user_id) user_id

/-! ### Reminder scheduler -/

/-- A `job_queue.run_once` job: the payload dict of bot.py:216-222 plus the
armed delay (`when`), kept in microseconds. -/
structure Job where
  reminder_id : Int
  owner_id : Int
  owner_chat_id : Option Int
  adder_chat_id : Option Int
  interval : Int
  delay : Int
deriving DecidableEq

/-- bot.py:207-223 `schedule_reminder_job`: a non-positive delay marks the
reminder done and arms nothing; otherwise a one-shot job is armed. -/
def schedule_reminder_job (s : Store) (reminder_id : Int) (owner_id : Int)
    (owner_chat_id adder_chat_id : Option Int) (remind_at : Int)
    (interval_minutes : Int) (now : Int) : Store × Option Job :=
  let delay := remind_at - now
  if delay ≤ 0 then (mark_reminder_done s reminder_id, none)
  else (s, some { reminder_id := reminder_id, owner_id := owner_id,
                  owner_chat_id := owner_chat_id, adder_chat_id := adder_chat_id,
                  interval := interval_minutes, delay := delay })

/-- bot.py:162-180 `add_feeding_and_schedule`.  Returns the updated store,
the armed job (if any) and the recorded UTC timestamp (the source returns
its local rendering as a display string). -/
def add_feeding_and_schedule (tzOffsetMin : Int) (s : Store) (owner_id : Int)
    (ts : PyDatetime) (ml : Option Int) (owner_chat_id adder_chat_id : Option Int)
    (reminder_minutes : Option Int) (now : Int) : Store × Option Job × Int :=
  let ts_utc := strip_seconds (to_utc tzOffsetMin ts)
  let s1 := add_feeding_db s owner_id ts_utc ml
  if truthyOI reminder_minutes then
    let m := reminder_minutes.getD 0
    let remind_at := ts_utc + m * microPerMin
    let rs := add_reminder_db s1 owner_id owner_chat_id adder_chat_id remind_at m now
    let sj := schedule_reminder_job rs.2 rs.1 owner_id owner_chat_id adder_chat_id
                remind_at m now
    (sj.1, sj.2, ts_utc)
  else (s1, none, ts_utc)

/-! ### Reminder fire callback -/

/-- The `job.data` dict of bot.py:508-512.  `reminder_id` and `interval` are
always set by the scheduler; the chat ids are the possibly-None values the
commit passed through. -/
structure JobData where
  reminder_id : Int
  owner_id : Int
  owner_chat_id : Option Int
  adder_chat_id : Option Int
  interval : Int
deriving DecidableEq

/-- One `bot.send_message` attempt; the boolean is an oracle for whether the
transport raises. -/
def trySend (fails : Bool) (_chat : Int) : Except String Unit :=
  if fails then Except.error "delivery failed" else Except.ok ()

/-- bot.py:506-531 `reminder_callback`.  Returns the updated store, the list
of chats a send was attempted to, and the list of chats actually delivered
to.  Each attempt sits in its own `try/except Exception: pass`, so the
failure oracles never influence control flow. -/
def reminder_callback (ownerSendFails adderSendFails : Bool) (s : Store) (d : JobData) :
    Store × List Int × List Int :=
  let owner_part : List Int × List Int :=
    match d.owner_chat_id with
    | some c =>
        if c ≠ 0 then
          match trySend ownerSendFails c with
          | Except.ok _ => ([c], [c])
          | Except.error _ => ([c], [])
        else ([], [])
    | none => ([], [])
  let adder_part : List Int × List Int :=
    match d.adder_chat_id with
    | some c =>
        if c ≠ 0 ∧ d.adder_chat_id ≠ d.owner_chat_id then
          match trySend adderSendFails c with
          | Except.ok _ => ([c], [c])
          | Except.error _ => ([c], [])
        else ([], [])
    | none => ([], [])
  let s1 := if d.reminder_id ≠ 0 then mark_reminder_done s d.reminder_id else s
  (s1, owner_part.1 ++ adder_part.1, owner_part.2 ++ adder_part.2)

/-! ### Conversation state (`context.user_data`) and handlers -/

/-- The dict stored under `awaiting_time` (bot.py:281-284). -/
structure AwaitTime where
  owner_id : Int
  adder_chat_id : Int
deriving DecidableEq

/-- The dict stored under `awaiting_ml_for_time` (bot.py:427-432). -/
structure AwaitMlForTime where
  owner_id : Int
  adder_chat_id : Int
  owner_chat_id : Int
  ts_utc : Int
deriving DecidableEq

/-- The dict stored under `pending` (bot.py:302-308, 399-405, 449-450). -/
structure Pending where
  owner_id : Int
  ts : PyDatetime
  ml : Int
  adder_chat_id : Int
  owner_chat_id : Int
deriving DecidableEq

/-- `context.user_data`: absent key = `none`.  The stored dicts are nonempty,
so for the dict-valued keys Python truthiness is `Option.isSome`; the
`awaiting_ml` key holds a bare integer, tested with integer truthiness. -/
structure UserData where
  awaiting_ml : Option Int := none
  awaiting_time : Option AwaitTime := none
  awaiting_ml_for_time : Option AwaitMlForTime := none
  pending : Option Pending := none
deriving DecidableEq

inductive TextReply
  /-- bot.py:395 format-error prompt of the `awaiting_ml` branch. -/
  | mlFormatError
  /-- bot.py:407-410 volume accepted, reminder keyboard shown. -/
  | askReminderMl (ml : Int)
  /-- bot.py:419-424 format-error prompt of the `awaiting_time` branch. -/
  | timeFormatError
  /-- bot.py:434 time accepted, volume requested. -/
  | askMlForTime
  /-- bot.py:446 format-error prompt of the `awaiting_ml_for_time` branch. -/
  | mlForTimeFormatError
  /-- bot.py:452-456 volume accepted for a chosen time. -/
  | plannedAskReminder (ts_utc : Int) (ml : Int)
  /-- bot.py:460-463 fallthrough menu hint. -/
  | menuHint
deriving DecidableEq

/-- Modelled from the spec: `get_owner_chat_id(owner_id)` is called at
bot.py:307, 404 and 430 but is defined nowhere in the repository; per the
data model the owner record may or may not carry a known chat id, so it is
taken as an abstract lookup passed to the handlers. -/
def OwnerChatLookup := Int → Option Int

/-- bot.py:381-463 `text_handler`.  Note that every branch pops its state key
before parsing, so a parse failure leaves the key removed. -/
def text_handler (tzOffsetMin : Int) (ownerChat : OwnerChatLookup) (ud : UserData)
    (chatId : Int) (rawText : String) (now : Int) : UserData × TextReply :=
  let text := pyStrip rawText
  if truthyOI ud.awaiting_ml then
    let owner_id := ud.awaiting_ml.getD 0
    let ud1 := { ud with awaiting_ml := none }
    match parse_positive_ml text with
    | none => (ud1, TextReply.mlFormatError)
    | some ml =>
        let p : Pending :=
          { owner_id := owner_id, ts := { instant := now, tzAware := true },
            ml := ml, adder_chat_id := chatId,
            owner_chat_id := pyOr (ownerChat owner_id) chatId }
        ({ ud1 with pending := some p }, TextReply.askReminderMl ml)
  else
    match ud.awaiting_time with
    | some info =>
        let ud1 := { ud with awaiting_time := none }
        (match parse_user_datetime text tzOffsetMin now with
         | none => (ud1, TextReply.timeFormatError)
         | some dt_utc =>
             let a : AwaitMlForTime :=
               { owner_id := info.owner_id, adder_chat_id := info.adder_chat_id,
                 owner_chat_id := pyOr (ownerChat info.owner_id) chatId,
                 ts_utc := dt_utc }
             ({ ud1 with awaiting_ml_for_time := some a }, TextReply.askMlForTime))
    | none =>
        match ud.awaiting_ml_for_time with
        | some p =>
            let ud1 := { ud with awaiting_ml_for_time := none }
            (match parse_positive_ml text with
             | none => (ud1, TextReply.mlForTimeFormatError)
             | some ml =>
                 let q : Pending :=
                   { owner_id := p.owner_id,
                     ts := { instant := p.ts_utc, tzAware := true },
                     ml := ml, adder_chat_id := p.adder_chat_id,
                     owner_chat_id := p.owner_chat_id }
                 ({ ud1 with pending := some q },
                  TextReply.plannedAskReminder p.ts_utc ml))
        | none => (ud, TextReply.menuHint)

inductive CancelReply
  /-- bot.py:493 input cancelled. -/
  | inputCancelled
  /-- bot.py:495 no active operations. -/
  | noActiveOps
deriving DecidableEq

/-- bot.py:490-495 `cancel_cmd`: only the `awaiting_ml` key is ever checked
or popped. -/
def cancel_cmd (ud : UserData) : UserData × CancelReply :=
  if truthyOI ud.awaiting_ml then
    ({ ud with awaiting_ml := none }, CancelReply.inputCancelled)
  else (ud, CancelReply.noActiveOps)

inductive ButtonReply
  /-- bot.py:319 no pending draft, start over. -/
  | noPendingStartOver
  /-- bot.py:337-341 feeding added confirmation. -/
  | added (ts_utc : Int) (ml : Int)
deriving DecidableEq

/-- Split on `'_'`, as Python `str.split("_")`. -/
def splitUnd (l : List Char) : List (List Char) :=
  match l with
  | [] => [[]]
  | c :: rest =>
    let r := splitUnd rest
    if c = '_' then [] :: r
    else match r with
      | h :: t => (c :: h) :: t
      | [] => [[c]]

/-- bot.py:316-342: the `rem_` branch of `button_handler` (the confirmation
at lines 337-342 is dedented in the source, which is a syntax error as
written; it is embedded in the `rem_` branch it plainly belongs to, as it
uses that branch's `pending` and `local_str`).  The outer `none` models an
uncaught exception aborting the handler (`int` on malformed data). -/
def button_rem (tzOffsetMin : Int) (s : Store) (ud : UserData) (data : String)
    (now : Int) : Option (Store × UserData × ButtonReply × Option Job) :=
  let ud1 := { ud with pending := none }
  match ud.pending with
  | none => some (s, ud1, ButtonReply.noPendingStartOver, none)
  | some p =>
      let minutes : Option (Option Int) :=
        if data = "rem_none" then some none
        else match (splitUnd data.toList).get? 1 with
          | some part => (pyIntL part).map some
          | none => none
      match minutes with
      | none => none
      | some mins =>
          let r := add_feeding_and_schedule tzOffsetMin s p.owner_id p.ts (some p.ml)
                     (some p.owner_chat_id) (some p.adder_chat_id) mins now
          some (r.1, ud1, ButtonReply.added r.2.2 p.ml, r.2.1)

/-! ### Sample data used by concrete witnesses -/

def sampleInvStore : Store :=
  { invites := [{ code := "ABC123", owner_id := 1, invited_id := none, created_at := 0 }] }

def sampleDelegStore : Store :=
  { invites := [{ code := "QQQZZZ", owner_id := 1, invited_id := some 5, created_at := 0 }] }

def sampleTs : PyDatetime := { instant := 1735830000123456, tzAware := true }

def sampleJobData : JobData :=
  { reminder_id := 1, owner_id := 1, owner_chat_id := some 10,
    adder_chat_id := some 20, interval := 180 }

/-! ### Helper lemmas -/

theorem strip_seconds_aligned (t : Int) : strip_seconds t % microPerMin = 0 := by
  show (t - t % microPerMin) % microPerMin = 0
  rw [show microPerMin = 60000000 from rfl]
  omega

theorem find?_code_join_update (l : List Invite) (code : String) (u : Int) :
    (l.map (fun i => if i.code = code then { i with invited_id := some u } else i)).find?
        (fun i => i.code = code)
      = (l.find? (fun i => i.code = code)).map (fun i => { i with invited_id := some u }) := by
  induction l with
  | nil => simp
  | cons h t ih =>
    by_cases hc : h.code = code
    · simp [List.find?, hc]
    · simp [List.find?, hc, ih]

theorem join_read_join_update (s : Store) (code : String) (u : Int) :
    join_read (join_update s code u) code
      = (join_read s code).map (fun p => (p.1, some u)) := by
  unfold join_read join_update
  simp only [find?_code_join_update]
  cases s.invites.find? (fun i => i.code = code) <;> simp

/-! ### Claims -/

/-- C6: `join_with_code` on a fresh code (row present, `invited_id` NULL)
returns `(owner_id, ok)` and binds `invited_id` to the claimer; a second
claim on the same code, for any claimer, returns `already_used` and leaves
the binding (and the whole store) unchanged; a claim on an unknown code
returns `not_found` and performs no mutation. -/
theorem join_with_code_spec (s : Store) (code : String) (u1 u2 : Int) :
    (join_read s code = none →
       join_with_code s code u1 = (none, "not_found", s)) ∧
    (∀ owner, join_read s code = some (owner, none) →
       join_with_code s code u1 = (some owner, "ok", join_update s code u1) ∧
       join_read (join_update s code u1) code = some (owner, some u1) ∧
       join_with_code (join_update s code u1) code u2
         = (none, "already_used", join_update s code u1)) ∧
    (∀ owner prev, join_read s code = some (owner, some prev) →
       join_with_code s code u1 = (none, "already_used", s)) := by
  refine ⟨?_, ?_, ?_⟩
  · intro h
    unfold join_with_code join_finish
    rw [h]
  · intro owner h
    have h2 := join_read_join_update s code u1
    rw [h] at h2
    refine ⟨?_, ?_, ?_⟩
    · unfold join_with_code join_finish
      rw [h]
      simp
    · simpa using h2
    · unfold join_with_code join_finish
      rw [h2]
      simp
  · intro owner prev h
    unfold join_with_code join_finish
    rw [h]
    simp

/-- C6 witness: the contract evaluated on a one-invite store. -/
theorem join_with_code_spec_witness :
    join_with_code sampleInvStore "ABC123" 2
      = (some 1, "ok", join_update sampleInvStore "ABC123" 2) ∧
    join_with_code (join_update sampleInvStore "ABC123" 2) "ABC123" 3
      = (none, "already_used", join_update sampleInvStore "ABC123" 2) ∧
    join_with_code sampleInvStore "NOPE00" 2 = (none, "not_found", sampleInvStore) := by
  have h := (join_with_code_spec sampleInvStore "ABC123" 2 3).2.1 1 (by decide)
  have h2 := (join_with_code_spec sampleInvStore "NOPE00" 2 3).1 (by decide)
  exact ⟨h.1, h.2.2, h2⟩

/-- C7: `resolve_owner` returns the owner recorded by `get_owner_by_invited`
when a delegation row with that `invited_id` exists, and the acting user id
itself otherwise.  Owner ids are nonzero (they are Telegram user ids), which
rules out the degenerate `0 or user_id` truthiness case. -/
theorem resolve_owner_spec (s : Store) (uid : Int)
    (hpos : ∀ i ∈ s.invites, i.owner_id ≠ 0) :
    (∀ w, get_owner_by_invited s uid = some w → resolve_owner s uid = w) ∧
    (get_owner_by_invited s uid = none → resolve_owner s uid = uid) := by
  constructor
  · intro w hw
    have hw0 : w ≠ 0 := by
      unfold get_owner_by_invited at hw
      rw [Option.map_eq_some'] at hw
      obtain ⟨i, hfind, hWi⟩ := hw
      have hmem := List.mem_of_find?_eq_some hfind
      exact hWi ▸ hpos i hmem
    unfold resolve_owner pyOr
    rw [hw]
    simp [hw0]
  · intro h
    unfold resolve_owner pyOr
    rw [h]

/-- C7 witness: the delegated user resolves to the owner, an unrelated user
resolves to itself. -/
theorem resolve_owner_spec_witness :
    resolve_owner sampleDelegStore 5 = 1 ∧ resolve_owner sampleDelegStore 6 = 6 := by
  constructor
  · exact (resolve_owner_spec sampleDelegStore 5 (by decide)).1 1 (by decide)
  · exact (resolve_owner_spec sampleDelegStore 6 (by decide)).2 (by decide)

/-- C8: the invite-claim check and set are two separate store operations in
`join_with_code` (a SELECT, then an UPDATE, with no transaction around the
pair).  Under the interleaving read(A), read(B), finish(A), finish(B) of two
concurrent claims on the same fresh code, both calls return `ok` and the
second write overwrites the binding made by the first, contradicting the
required exactly-one-succeeds atomicity. -/
theorem join_claim_not_atomic :
    (join_finish sampleInvStore "ABC123" 2 (join_read sampleInvStore "ABC123")).2.1 = "ok" ∧
    (join_finish
        (join_finish sampleInvStore "ABC123" 2 (join_read sampleInvStore "ABC123")).2.2
        "ABC123" 3 (join_read sampleInvStore "ABC123")).2.1 = "ok" ∧
    join_read
        (join_finish
          (join_finish sampleInvStore "ABC123" 2 (join_read sampleInvStore "ABC123")).2.2
          "ABC123" 3 (join_read sampleInvStore "ABC123")).2.2
        "ABC123" = some (1, some 3) := by
  decide

/-- C10: a `rem_N` / `rem_none` callback arriving with no pending draft for
the acting user writes nothing to the store, arms no job, leaves the user
data unchanged (the pending slot stays empty), and replies with the
start-over prompt. -/
theorem button_rem_no_pending (tz : Int) (s : Store) (ud : UserData) (data : String)
    (now : Int) (h : ud.pending = none) :
    button_rem tz s ud data now = some (s, ud, ButtonReply.noPendingStartOver, none) := by
  have hud : { ud with pending := none } = ud := by
    cases ud
    simp_all
  unfold button_rem
  rw [h, hud]

/-- C10 witness. -/
theorem button_rem_no_pending_witness :
    button_rem 0 {} {} "rem_180" 0 = some ({}, {}, ButtonReply.noPendingStartOver, none) :=
  button_rem_no_pending 0 {} {} "rem_180" 0 rfl

/-- C2 counterexample: with a pending `awaiting_time` state, the cancel
command replies that no operation is active and leaves the state in place,
so cancel does not reach Idle from every non-Idle state as claimed. -/
theorem cancel_cmd_ignores_awaiting_time_cex :
    cancel_cmd { awaiting_time := some { owner_id := 1, adder_chat_id := 2 } }
      = ({ awaiting_time := some { owner_id := 1, adder_chat_id := 2 } },
         CancelReply.noActiveOps) := by
  decide

/-- C2 amended: the cancel command discards only the `awaiting_ml`
(AwaitingVolume) context, confirming the cancellation; in every other state
it replies that no operation is active and changes nothing. -/
theorem cancel_cmd_spec (ud : UserData) :
    (truthyOI ud.awaiting_ml = true →
       cancel_cmd ud = ({ ud with awaiting_ml := none }, CancelReply.inputCancelled)) ∧
    (truthyOI ud.awaiting_ml = false →
       cancel_cmd ud = (ud, CancelReply.noActiveOps)) := by
  unfold cancel_cmd
  constructor <;> intro h <;> simp [h]

/-- C2 witness. -/
theorem cancel_cmd_spec_witness :
    cancel_cmd { awaiting_ml := some 7 } = ({}, CancelReply.inputCancelled) ∧
    cancel_cmd {} = ({}, CancelReply.noActiveOps) := by
  constructor
  · exact ((cancel_cmd_spec { awaiting_ml := some 7 }).1 (by decide)).trans (by decide)
  · exact (cancel_cmd_spec {}).2 (by decide)

/-- C1 counterexample: a user in `AwaitingTime` who sends unparseable text
loses the awaiting state (the key is popped before parsing), instead of
remaining in `AwaitingTime` with its context intact as claimed. -/
theorem text_handler_drops_state_cex :
    text_handler 0 (fun _ => none)
        { awaiting_time := some { owner_id := 1, adder_chat_id := 2 } } 2 "abc" 0
      = ({}, TextReply.timeFormatError) := by
  decide

/-- C1 amended: in each of the three awaiting states, a text that fails that
state's parse leaves the user with the state cleared (each branch pops its
key before parsing and does not restore it), together with the
state-specific format-error prompt; the held context is discarded and the
user must restart the flow. -/
theorem text_handler_parse_failure_spec (tz : Int) (oc : OwnerChatLookup) (ud : UserData)
    (chat : Int) (text : String) (now : Int) :
    (truthyOI ud.awaiting_ml = true → parse_positive_ml (pyStrip text) = none →
       text_handler tz oc ud chat text now
         = ({ ud with awaiting_ml := none }, TextReply.mlFormatError)) ∧
    (truthyOI ud.awaiting_ml = false → ∀ info, ud.awaiting_time = some info →
       parse_user_datetime (pyStrip text) tz now = none →
       text_handler tz oc ud chat text now
         = ({ ud with awaiting_time := none }, TextReply.timeFormatError)) ∧
    (truthyOI ud.awaiting_ml = false → ud.awaiting_time = none →
       ∀ p, ud.awaiting_ml_for_time = some p →
       parse_positive_ml (pyStrip text) = none →
       text_handler tz oc ud chat text now
         = ({ ud with awaiting_ml_for_time := none }, TextReply.mlForTimeFormatError)) := by
  unfold text_handler
  refine ⟨?_, ?_, ?_⟩
  · intro h1 h2
    simp [h1, h2]
  · intro h1 info h2 h3
    simp [h1, h2, h3]
  · intro h1 h2 p h3 h4
    simp [h1, h2, h3, h4]

/-- C1 witness: the three failure branches evaluated on concrete inputs. -/
theorem text_handler_parse_failure_spec_witness :
    text_handler 0 (fun _ => none) { awaiting_ml := some 5 } 2 "abc" 0
      = ({}, TextReply.mlFormatError) ∧
    text_handler 0 (fun _ => none)
        { awaiting_time := some { owner_id := 1, adder_chat_id := 2 } } 2 "25:99" 0
      = ({}, TextReply.timeFormatError) ∧
    text_handler 0 (fun _ => none)
        { awaiting_ml_for_time :=
            some { owner_id := 1, adder_chat_id := 2, owner_chat_id := 2, ts_utc := 0 } }
        2 "zz" 0
      = ({}, TextReply.mlForTimeFormatError) := by
  refine ⟨?_, ?_, ?_⟩
  · exact ((text_handler_parse_failure_spec 0 (fun _ => none) { awaiting_ml := some 5 }
      2 "abc" 0).1 (by decide) (by decide)).trans (by decide)
  · exact ((text_handler_parse_failure_spec 0 (fun _ => none)
      { awaiting_time := some { owner_id := 1, adder_chat_id := 2 } }
      2 "25:99" 0).2.1 (by decide) _ rfl (by decide)).trans (by decide)
  · exact ((text_handler_parse_failure_spec 0 (fun _ => none)
      { awaiting_ml_for_time :=
          some { owner_id := 1, adder_chat_id := 2, owner_chat_id := 2, ts_utc := 0 } }
      2 "zz" 0).2.2 (by decide) rfl _ rfl (by decide)).trans (by decide)

/-- C3: a commit with a chosen delay of `D` minutes records the feeding and
creates a reminder (the last reminder row) with
`remind_at = feeding.ts_utc + D` minutes; if that `remind_at` is not after
`now` (delay `<= 0` at schedule time), the reminder is immediately marked
inactive and no job is armed — so no notification can ever fire for it —
while the feeding row is recorded either way. -/
theorem add_feeding_and_schedule_spec (tz : Int) (s : Store) (owner : Int)
    (ts : PyDatetime) (ml : Option Int) (oc ac : Option Int) (D : Int) (now : Int)
    (hD : D ≠ 0) :
    ∃ rem,
      ((add_feeding_and_schedule tz s owner ts ml oc ac (some D) now).1).reminders.getLast?
          = some rem ∧
      ((add_feeding_and_schedule tz s owner ts ml oc ac (some D) now).1).feedings
          = s.feedings
              ++ [{ user_id := owner, ts_utc := strip_seconds (to_utc tz ts), ml := ml }] ∧
      rem.remind_at = strip_seconds (to_utc tz ts) + D * microPerMin ∧
      rem.interval_minutes = D ∧
      (rem.remind_at ≤ now →
         (add_feeding_and_schedule tz s owner ts ml oc ac (some D) now).2.1 = none ∧
         rem.active = false) ∧
      (now < rem.remind_at →
         rem.active = true ∧
         (add_feeding_and_schedule tz s owner ts ml oc ac (some D) now).2.1
           = some { reminder_id := (s.reminders.length : Int) + 1, owner_id := owner,
                    owner_chat_id := oc, adder_chat_id := ac, interval := D,
                    delay := rem.remind_at - now }) := by
  have htr : truthyOI (some D) = true := by
    simp [truthyOI, hD]
  simp only [add_feeding_and_schedule, schedule_reminder_job, add_reminder_db, add_feeding_db,
    htr, if_true, Option.getD_some]
  set tsu := strip_seconds (to_utc tz ts) with htsu
  by_cases hpast : tsu + D * microPerMin - now ≤ 0
  · rw [if_pos hpast]
    refine ⟨{ id := (s.reminders.length : Int) + 1, owner_id := owner, owner_chat_id := oc,
              adder_chat_id := ac, remind_at := tsu + D * microPerMin,
              interval_minutes := D, created_at := now, active := false },
            ?_, rfl, rfl, rfl, ?_, ?_⟩
    · simp [mark_reminder_done, List.getLast?_concat]
    · intro _
      exact ⟨rfl, rfl⟩
    · intro hfut
      dsimp only at hfut
      exact absurd hfut (by omega)
  · rw [if_neg hpast]
    refine ⟨{ id := (s.reminders.length : Int) + 1, owner_id := owner, owner_chat_id := oc,
              adder_chat_id := ac, remind_at := tsu + D * microPerMin,
              interval_minutes := D, created_at := now, active := true },
            ?_, rfl, rfl, rfl, ?_, ?_⟩
    · simp [List.getLast?_concat]
    · intro hle
      dsimp only at hle
      exact absurd hle (by omega)
    · intro _
      exact ⟨rfl, rfl⟩

/-- C3 witness: a commit with delay 180 at a `now` far past `remind_at`
(past case) and one at `now = 0` (future case). -/
theorem add_feeding_and_schedule_spec_witness :
    (∃ rem,
      ((add_feeding_and_schedule 0 {} 1 sampleTs (some 100) (some 10) (some 20)
          (some 180) 9000000000000000).1).reminders.getLast? = some rem ∧
      ((add_feeding_and_schedule 0 {} 1 sampleTs (some 100) (some 10) (some 20)
          (some 180) 9000000000000000).1).feedings
        = ([] : List Feeding)
            ++ [{ user_id := 1, ts_utc := strip_seconds (to_utc 0 sampleTs), ml := some 100 }] ∧
      rem.remind_at = strip_seconds (to_utc 0 sampleTs) + 180 * microPerMin ∧
      rem.interval_minutes = 180 ∧
      (rem.remind_at ≤ 9000000000000000 →
         (add_feeding_and_schedule 0 {} 1 sampleTs (some 100) (some 10) (some 20)
             (some 180) 9000000000000000).2.1 = none ∧
         rem.active = false) ∧
      (9000000000000000 < rem.remind_at →
         rem.active = true ∧
         (add_feeding_and_schedule 0 {} 1 sampleTs (some 100) (some 10) (some 20)
             (some 180) 9000000000000000).2.1
           = some { reminder_id := 0 + 1, owner_id := 1, owner_chat_id := some 10,
                    adder_chat_id := some 20, interval := 180,
                    delay := rem.remind_at - 9000000000000000 })) := by
  exact add_feeding_and_schedule_spec 0 {} 1 sampleTs (some 100) (some 10) (some 20) 180
    9000000000000000 (by decide)

/-- C4: when a reminder fires, a send is attempted to `owner_chat_id`; a
separate send to `adder_chat_id` is attempted exactly when it differs from
`owner_chat_id`; and the store ends as `mark_reminder_done` regardless of
any delivery failure — the attempt list and the store are the same whatever
the two failure oracles are, because each send sits in its own
`try/except: pass`.  The chat ids and the reminder id carried by a job are
the nonzero values the commit recorded. -/
theorem reminder_callback_spec (f1 f2 : Bool) (s : Store) (d : JobData) (oc ac : Int)
    (hoc : d.owner_chat_id = some oc) (hoc0 : oc ≠ 0)
    (hac : d.adder_chat_id = some ac) (hac0 : ac ≠ 0)
    (hrid : d.reminder_id ≠ 0) :
    (reminder_callback f1 f2 s d).2.1
        = oc :: (if ac ≠ oc then [ac] else []) ∧
    (reminder_callback f1 f2 s d).1 = mark_reminder_done s d.reminder_id ∧
    ((reminder_callback f1 f2 s d).1, (reminder_callback f1 f2 s d).2.1)
        = ((reminder_callback false false s d).1,
           (reminder_callback false false s d).2.1) := by
  unfold reminder_callback trySend
  rw [hoc, hac]
  by_cases hne : ac = oc
  · subst hne
    simp [hoc0, hrid]
    cases f1 <;> simp
  · have hso : some ac ≠ some oc := by
      simp [hne]
    simp [hoc0, hac0, hne, hso, hrid]
    cases f1 <;> cases f2 <;> simp

/-- C4 witness: both sends fail, the attempts and the done-marking happen
regardless. -/
theorem reminder_callback_spec_witness :
    (reminder_callback true true {} sampleJobData).2.1 = 10 :: (if (20:Int) ≠ 10 then [20] else []) ∧
    (reminder_callback true true {} sampleJobData).1 = mark_reminder_done {} 1 ∧
    ((reminder_callback true true {} sampleJobData).1,
        (reminder_callback true true {} sampleJobData).2.1)
      = ((reminder_callback false false {} sampleJobData).1,
         (reminder_callback false false {} sampleJobData).2.1) :=
  reminder_callback_spec true true {} sampleJobData 10 20 rfl (by decide) rfl (by decide)
    (by decide)

/-- C9: every feeding recorded by `add_feeding_and_schedule` has its UTC
timestamp truncated to a whole minute (`strip_seconds` is applied to every
input timestamp before the insert), and as `remind_at` is that timestamp
plus a whole number of minutes, minute alignment is an invariant of both
tables. -/
theorem feeding_minute_alignment (tz : Int) (s : Store) (owner : Int) (ts : PyDatetime)
    (ml : Option Int) (oc ac : Option Int) (rm : Option Int) (now : Int)
    (hF : ∀ f ∈ s.feedings, f.ts_utc % microPerMin = 0)
    (hR : ∀ r ∈ s.reminders, r.remind_at % microPerMin = 0) :
    (∀ f ∈ (add_feeding_and_schedule tz s owner ts ml oc ac rm now).1.feedings,
        f.ts_utc % microPerMin = 0) ∧
    (∀ r ∈ (add_feeding_and_schedule tz s owner ts ml oc ac rm now).1.reminders,
        r.remind_at % microPerMin = 0) := by
  have hnew : strip_seconds (to_utc tz ts) % microPerMin = 0 := strip_seconds_aligned _
  have hrem : (strip_seconds (to_utc tz ts) + (rm.getD 0) * microPerMin) % microPerMin = 0 := by
    rw [show microPerMin = 60000000 from rfl] at hnew ⊢
    omega
  by_cases htr : truthyOI rm = true
  · simp only [add_feeding_and_schedule, add_reminder_db, add_feeding_db,
      schedule_reminder_job, mark_reminder_done]
    rw [if_pos htr]
    by_cases hpast : strip_seconds (to_utc tz ts) + rm.getD 0 * microPerMin - now ≤ 0
    · rw [if_pos hpast]
      dsimp only
      constructor
      · intro f hf
        simp only [List.mem_append, List.mem_singleton] at hf
        rcases hf with hf | hf
        · exact hF f hf
        · rw [hf]
          exact hnew
      · intro r hr
        simp only [List.mem_map, List.mem_append, List.mem_singleton] at hr
        obtain ⟨r0, hr0, hmap⟩ := hr
        have hra : r.remind_at = r0.remind_at := by
          rw [← hmap]
          by_cases hid : r0.id = (s.reminders.length : Int) + 1 <;> simp [hid]
        rcases hr0 with hr0 | hr0
        · rw [hra]
          exact hR r0 hr0
        · rw [hra, hr0]
          exact hrem
    · rw [if_neg hpast]
      dsimp only
      constructor
      · intro f hf
        simp only [List.mem_append, List.mem_singleton] at hf
        rcases hf with hf | hf
        · exact hF f hf
        · rw [hf]
          exact hnew
      · intro r hr
        simp only [List.mem_append, List.mem_singleton] at hr
        rcases hr with hr | hr
        · exact hR r hr
        · rw [hr]
          exact hrem
  · simp only [add_feeding_and_schedule, add_feeding_db]
    rw [if_neg htr]
    dsimp only
    constructor
    · intro f hf
      simp only [List.mem_append, List.mem_singleton] at hf
      rcases hf with hf | hf
      · exact hF f hf
      · rw [hf]
        exact hnew
    · exact hR

/-- C9 witness: an unaligned input timestamp on an empty store, with a
reminder requested. -/
theorem feeding_minute_alignment_witness :
    (∀ f ∈ (add_feeding_and_schedule 0 {} 1 sampleTs (some 100) (some 10) (some 20)
        (some 180) 0).1.feedings, f.ts_utc % microPerMin = 0) ∧
    (∀ r ∈ (add_feeding_and_schedule 0 {} 1 sampleTs (some 100) (some 10) (some 20)
        (some 180) 0).1.reminders, r.remind_at % microPerMin = 0) :=
  feeding_minute_alignment 0 {} 1 sampleTs (some 100) (some 10) (some 20) (some 180) 0
    (by simp) (by simp)

/-- C5: a full `YYYY-MM-DD HH:MM` input is accepted as the instant its civil
fields denote in the configured zone, independent of `now` (no roll-forward
even when in the past); a bare `HH:MM` input is resolved on the local civil
date of `now`, and exactly when that instant is not after `now` it is moved
forward by exactly one day — the nearest future occurrence, today or
tomorrow. -/
theorem parse_user_datetime_spec (text : String) (tz : Int) (now : Int) :
    (∀ y m d hh mi, strptimeFull (pyStrip text) = some (y, m, d, hh, mi) →
       parse_user_datetime text tz now
         = some (civilToMicro y m d hh mi - tz * microPerMin)) ∧
    (∀ hh mi, strptimeFull (pyStrip text) = none →
       strptimeHM (pyStrip text) = some (hh, mi) →
       (bare_today_instant tz now hh mi ≤ now →
          parse_user_datetime text tz now
            = some (bare_today_instant tz now hh mi + microPerDay)) ∧
       (now < bare_today_instant tz now hh mi →
          parse_user_datetime text tz now
            = some (bare_today_instant tz now hh mi))) := by
  constructor
  · intro y m d hh mi h
    simp only [parse_user_datetime, h]
  · intro hh mi h1 h2
    constructor
    · intro h3
      simp only [parse_user_datetime, h1, h2]
      rw [if_pos h3]
    · intro h3
      simp only [parse_user_datetime, h1, h2]
      rw [if_neg (by omega)]

/-- C5 witness: the spec scenario — `"14:30"` entered when the local time is
15:00 on 2025-01-02 resolves to 14:30 on 2025-01-03, while a full
`"2020-01-01 00:00"` far in the past is accepted as given. -/
theorem parse_user_datetime_spec_witness :
    parse_user_datetime "14:30" 0 (civilToMicro 2025 1 2 15 0)
      = some (civilToMicro 2025 1 3 14 30) ∧
    parse_user_datetime "2020-01-01 00:00" 0 (civilToMicro 2025 1 2 15 0)
      = some (civilToMicro 2020 1 1 0 0) := by
  constructor
  · have h := ((parse_user_datetime_spec "14:30" 0 (civilToMicro 2025 1 2 15 0)).2 14 30
      (by decide) (by decide)).1 (by decide)
    exact h.trans (by decide)
  · have h := (parse_user_datetime_spec "2020-01-01 00:00" 0
      (civilToMicro 2025 1 2 15 0)).1 2020 1 1 0 0 (by decide)
    exact h.trans (by decide)

end MilkBot
